import Mathlib

/-
  Verification development for the Todo CRUD application.

  Server side (Express routes over the `todos` Postgres table):
  the five route handlers are embedded as pure functions over an explicit
  store state `DB`.  A `conn` flag injects connection-level store failures;
  the NOT NULL constraints of the schema are part of the insert/update
  query functions.  Client side (React App component): the filter pipeline,
  the 5-item slice handed to the list view, and the error-message state
  machine are embedded as pure functions over `UIState`.
-/

namespace TodoApp

/-- A row of the `todos` table.  `title` and `description` carry the
NOT NULL constraint, so they are plain strings; `priority`, `category`
and `completed` are nullable columns.  `created_at` is an abstract store
clock value. -/
structure Todo where
  todo_id : Nat
  title : String
  description : String
  priority : Option String
  category : Option String
  completed : Option Bool
  created_at : Nat
  deriving DecidableEq

/-- The record store: the rows of the `todos` table in heap (insertion)
order, plus the SERIAL sequence counter for `todo_id`. -/
structure DB where
  rows : List Todo
  nextId : Nat
  deriving DecidableEq

/-- A fresh database: no rows, SERIAL counter at 1. -/
def emptyDB : DB := ⟨[], 1⟩

/-- Body of a POST /todos request: all four fields may be absent
(`none` models a field missing from the JSON body). -/
structure CreateBody where
  title : Option String
  description : Option String
  priority : Option String
  category : Option String
  deriving DecidableEq

/-- Body of a PUT /todos/:id request: the handler destructures these five
fields; absent fields are written to the row as null. -/
structure UpdateBody where
  title : Option String
  description : Option String
  priority : Option String
  category : Option String
  completed : Option Bool
  deriving DecidableEq

/-- The JSON (or text) body of an HTTP response. -/
inductive Body where
  | todoBody : Todo → Body
  | listBody : List Todo → Body
  | msgBody : String → Body
  | textBody : String → Body
  | emptyBody : Body
  deriving DecidableEq

/-- An HTTP response: status code and body. -/
structure Resp where
  status : Nat
  body : Body
  deriving DecidableEq

/-- The fixed error response produced by every catch block:
`res.status(500).send('Server Error')`. -/
def serverError : Resp := ⟨500, Body.textBody "Server Error"⟩

/-- `INSERT INTO todos (title, description, priority, category)
VALUES ($1,$2,$3,$4) RETURNING *`.  Fails when the connection is down or
when a NOT NULL column receives null; otherwise appends the new row
(SERIAL id, store-clock `created_at`, `completed` defaulted to false). -/
def insertQuery (conn : Bool) (db : DB) (now : Nat) (t d : Option String)
    (p c : String) : Except String (DB × Todo) :=
  if conn then
    match t, d with
    | some t, some d =>
      let row : Todo := ⟨db.nextId, t, d, some p, some c, some false, now⟩
      Except.ok (⟨db.rows ++ [row], db.nextId + 1⟩, row)
    | _, _ => Except.error "null value violates not-null constraint"
  else Except.error "connection error"

/-- `SELECT * FROM todos`: all rows in store-native (insertion) order. -/
def selectAllQuery (conn : Bool) (db : DB) : Except String (List Todo) :=
  if conn then Except.ok db.rows else Except.error "connection error"

/-- `SELECT * FROM todos WHERE todo_id = $1`. -/
def selectByIdQuery (conn : Bool) (db : DB) (id : Nat) :
    Except String (List Todo) :=
  if conn then Except.ok (db.rows.filter (fun r => r.todo_id == id))
  else Except.error "connection error"

/-- `UPDATE todos SET title=$1, description=$2, priority=$3, category=$4,
completed=$5 WHERE todo_id = $6`.  When no row matches it succeeds without
touching anything; when a row matches, writing null into a NOT NULL column
fails. -/
def updateQuery (conn : Bool) (db : DB) (id : Nat) (b : UpdateBody) :
    Except String DB :=
  if conn then
    if db.rows.any (fun r => r.todo_id == id) then
      match b.title, b.description with
      | some t, some d =>
        Except.ok ⟨db.rows.map (fun r =>
          if r.todo_id == id then
            { r with title := t, description := d, priority := b.priority,
                     category := b.category, completed := b.completed }
          else r), db.nextId⟩
      | _, _ => Except.error "null value violates not-null constraint"
    else Except.ok db
  else Except.error "connection error"

/-- `DELETE FROM todos WHERE todo_id = $1`. -/
def deleteQuery (conn : Bool) (db : DB) (id : Nat) : Except String DB :=
  if conn then
    Except.ok ⟨db.rows.filter (fun r => !(r.todo_id == id)), db.nextId⟩
  else Except.error "connection error"

/-- Route `app.post('/todos')`: destructure the body with JS defaults
`priority = 'medium'`, `category = 'general'`, insert, and answer with the
returned row; any store error becomes the fixed 500 response. -/
def postTodos (conn : Bool) (now : Nat) (db : DB) (body : CreateBody) :
    Resp × DB :=
  let priority := body.priority.getD "medium"
  let category := body.category.getD "general"
  match insertQuery conn db now body.title body.description priority category with
  | Except.ok (db2, row) => (⟨200, Body.todoBody row⟩, db2)
  | Except.error _ => (serverError, db)

/-- Route `app.get('/todos')`: answer with every row. -/
def getTodosRoute (conn : Bool) (db : DB) : Resp :=
  match selectAllQuery conn db with
  | Except.ok rows => ⟨200, Body.listBody rows⟩
  | Except.error _ => serverError

/-- Route `app.get('/todos/:id')`: answer with `rows[0]`; when no row
matches, `rows[0]` is undefined and `res.json(undefined)` sends a 200 with
an empty body. -/
def getTodoRoute (conn : Bool) (db : DB) (id : Nat) : Resp :=
  match selectByIdQuery conn db id with
  | Except.ok rows =>
    match rows.head? with
    | some r => ⟨200, Body.todoBody r⟩
    | none => ⟨200, Body.emptyBody⟩
  | Except.error _ => serverError

/-- Route `app.put('/todos/:id')`: run the update and answer with the fixed
confirmation message, regardless of how many rows matched. -/
def putTodoRoute (conn : Bool) (db : DB) (id : Nat) (body : UpdateBody) :
    Resp × DB :=
  match updateQuery conn db id body with
  | Except.ok db2 => (⟨200, Body.msgBody "Todo updated successfully"⟩, db2)
  | Except.error _ => (serverError, db)

/-- Route `app.delete('/todos/:id')`: run the delete and answer with the
fixed confirmation message, regardless of how many rows matched. -/
def deleteTodoRoute (conn : Bool) (db : DB) (id : Nat) : Resp × DB :=
  match deleteQuery conn db id with
  | Except.ok db2 => (⟨200, Body.msgBody "Todo deleted successfully"⟩, db2)
  | Except.error _ => (serverError, db)

/-- JS `s.toLowerCase()`, as the character list of the lowered string. -/
def jsToLower (s : String) : List Char := s.data.map Char.toLower

/-- JS `hay.includes(needle)`: substring containment. -/
def hasSubstr : List Char → List Char → Bool
  | [], needle => needle.isPrefixOf []
  | a :: t, needle => needle.isPrefixOf (a :: t) || hasSubstr t needle

/-- Case-insensitive `includes`, as used on both `todo.title` and
`todo.description` against the search term. -/
def includesCI (hay needle : String) : Bool :=
  hasSubstr (jsToLower hay) (jsToLower needle)

/-- The predicate of `todos.filter(...)` in the App component:
`matchesSearch && matchesPriority && matchesCategory`, with absent
priority defaulting to `medium` and absent category to `general`. -/
def matchesFilters (searchTerm filterPriority filterCategory : String)
    (todo : Todo) : Bool :=
  let matchesSearch := includesCI todo.title searchTerm
    || includesCI todo.description searchTerm
  let matchesPriority := filterPriority == "all"
    || (todo.priority.getD "medium") == filterPriority
  let matchesCategory := filterCategory == "all"
    || (todo.category.getD "general") == filterCategory
  matchesSearch && matchesPriority && matchesCategory

/-- `filteredTodos` of the App component. -/
def filteredTodos (todos : List Todo) (s p c : String) : List Todo :=
  todos.filter (matchesFilters s p c)

/-- The list actually handed to the TodoList view:
`filteredTodos.slice(0, 5)`. -/
def visibleTodos (todos : List Todo) (s p c : String) : List Todo :=
  (filteredTodos todos s p c).take 5

/-- The "`n` found" counter next to the list: `filteredTodos.length`. -/
def foundCount (todos : List Todo) (s p c : String) : Nat :=
  (filteredTodos todos s p c).length

/-- `allTodos.sort((a, b) => b.todo_id - a.todo_id)`: descending by id. -/
def sortByIdDesc (ts : List Todo) : List Todo :=
  ts.mergeSort (fun a b => b.todo_id ≤ a.todo_id)

/-- The App component state touched by the fetch/create/delete handlers. -/
structure UIState where
  todos : List Todo
  loading : Bool
  error : Option String
  deriving DecidableEq

/-- Error message set by a failed `fetchTodos`. -/
def fetchFailedMsg : String :=
  "Failed to fetch todos. Please check if the server is running."

/-- Error message set by a failed `addTodo`. -/
def createFailedMsg : String := "Failed to create todo. Please try again."

/-- Error message set by a failed `markAsDone`. -/
def markDoneFailedMsg : String :=
  "Failed to mark todo as done. Please try again."

/-- `fetchTodos`: on success, clear the error and store the list sorted
descending by id; on failure, set the fetch message.  Loading ends either
way (the `finally` block). -/
def fetchTodosUI (st : UIState) (result : Except Unit (List Todo)) :
    UIState :=
  match result with
  | Except.ok ts => { st with loading := false, error := none,
                              todos := sortByIdDesc ts }
  | Except.error _ => { st with loading := false,
                                error := some fetchFailedMsg }

/-- `addTodo`: on success, prepend the returned record (the error state is
not touched); on failure, set the create message. -/
def addTodoUI (st : UIState) (result : Except Unit Todo) : UIState :=
  match result with
  | Except.ok t => { st with todos := t :: st.todos }
  | Except.error _ => { st with error := some createFailedMsg }

/-- `markAsDone`: on success, drop the row from the list (the error state
is not touched); on failure, set the mark-as-done message. -/
def markAsDoneUI (st : UIState) (id : Nat) (result : Except Unit Unit) :
    UIState :=
  match result with
  | Except.ok _ =>
    { st with todos := st.todos.filter (fun t => !(t.todo_id == id)) }
  | Except.error _ => { st with error := some markDoneFailedMsg }

/-- Spec-side reading of the filter contract: case-insensitive substring
match of the search term on title OR description, exact match on priority
(absent priority counts as medium), exact match on category (absent
category counts as general), each filter at its "all" default matching
everything. -/
def SpecMatches (s p c : String) (t : Todo) : Prop :=
  ((∃ u v, jsToLower t.title = u ++ jsToLower s ++ v)
    ∨ (∃ u v, jsToLower t.description = u ++ jsToLower s ++ v))
  ∧ (p = "all" ∨ t.priority.getD "medium" = p)
  ∧ (c = "all" ∨ t.category.getD "general" = c)

/-- Run a sequence of Create requests against the store. -/
def createAll (now : Nat) (db : DB) (bodies : List CreateBody) : DB :=
  bodies.foldl (fun d b => (postTodos true now d b).2) db

/-- The rows a sequence of valid Create requests adds, starting at a given
SERIAL value (the `getD ""` placeholders are only reached for invalid
bodies). -/
def newRows (now : Nat) : Nat → List CreateBody → List Todo
  | _, [] => []
  | startId, b :: bs =>
    ⟨startId, b.title.getD "", b.description.getD "",
     some (b.priority.getD "medium"), some (b.category.getD "general"),
     some false, now⟩ :: newRows now (startId + 1) bs

/-- A concrete row used in witnesses and counterexamples. -/
def sampleTodo : Todo :=
  ⟨1, "alpha", "beta", some "high", some "work", some false, 0⟩

/-- A concrete one-row store used in witnesses. -/
def sampleDB : DB := ⟨[sampleTodo], 2⟩

/-- A concrete Create body with `title` absent. -/
def noTitleBody : CreateBody := ⟨none, some "x", none, none⟩

/-- A concrete valid Create body. -/
def validBody : CreateBody := ⟨some "a", some "b", none, none⟩

/-- A concrete list of valid Create bodies. -/
def sampleBodies : List CreateBody :=
  [⟨some "a", some "b", none, none⟩,
   ⟨some "c", some "d", some "high", some "work"⟩]

/-- A concrete Update body with every field absent. -/
def emptyUpdate : UpdateBody := ⟨none, none, none, none, none⟩

/-- `isPrefixOf` agrees with the existence of a completing suffix. -/
theorem isPrefixOf_eq_true_iff (l₁ l₂ : List Char) :
    l₁.isPrefixOf l₂ = true ↔ ∃ v, l₂ = l₁ ++ v := by
  induction l₁ generalizing l₂ with
  | nil => simp [List.isPrefixOf]
  | cons a as ih =>
    cases l₂ with
    | nil => simp [List.isPrefixOf]
    | cons b bs =>
      simp only [List.isPrefixOf, Bool.and_eq_true, beq_iff_eq, ih,
        List.cons_append, List.cons.injEq]
      constructor
      · rintro ⟨hab, v, hv⟩
        exact ⟨v, hab.symm, hv⟩
      · rintro ⟨v, hba, hv⟩
        exact ⟨hba.symm, v, hv⟩

/-- `hasSubstr` agrees with the existence of a decomposition around the
needle. -/
theorem hasSubstr_iff (hay needle : List Char) :
    hasSubstr hay needle = true ↔ ∃ u v, hay = u ++ needle ++ v := by
  induction hay with
  | nil =>
    rw [hasSubstr, isPrefixOf_eq_true_iff]
    constructor
    · rintro ⟨v, hv⟩
      exact ⟨[], v, by simpa using hv⟩
    · rintro ⟨u, v, huv⟩
      have h2 := huv.symm
      simp only [List.append_eq_nil] at h2
      exact ⟨v, by simp [h2.1.2, h2.2]⟩
  | cons a t ih =>
    rw [hasSubstr, Bool.or_eq_true, isPrefixOf_eq_true_iff, ih]
    constructor
    · rintro (⟨v, hv⟩ | ⟨u, v, huv⟩)
      · exact ⟨[], v, by simpa using hv⟩
      · exact ⟨a :: u, v, by simp [huv]⟩
    · rintro ⟨u, v, huv⟩
      cases u with
      | nil => exact Or.inl ⟨v, by simpa using huv⟩
      | cons x u2 =>
        simp only [List.cons_append, List.cons.injEq] at huv
        exact Or.inr ⟨u2, v, huv.2⟩

/-- `includesCI` agrees with case-insensitive substring containment. -/
theorem includesCI_iff (hay needle : String) :
    includesCI hay needle = true
      ↔ ∃ u v, jsToLower hay = u ++ jsToLower needle ++ v :=
  hasSubstr_iff _ _

/-- The empty search term matches every string. -/
theorem includesCI_empty (s : String) : includesCI s "" = true :=
  (hasSubstr_iff _ _).mpr ⟨[], jsToLower s, rfl⟩

/-- C4: with the store failing (connection down), each of the five route
handlers answers exactly status 500 with body "Server Error", leaves the
store untouched, and lets no exception escape (the handlers are total). -/
theorem c4_store_failure (now : Nat) (db : DB) (body : CreateBody)
    (id : Nat) (ub : UpdateBody) :
    postTodos false now db body = (serverError, db)
    ∧ getTodosRoute false db = serverError
    ∧ getTodoRoute false db id = serverError
    ∧ putTodoRoute false db id ub = (serverError, db)
    ∧ deleteTodoRoute false db id = (serverError, db)
    ∧ serverError.status = 500
    ∧ serverError.body = Body.textBody "Server Error" :=
  ⟨rfl, rfl, rfl, rfl, rfl, rfl, rfl⟩

/-- C3: Create with only title and description stores and returns a record
with priority "medium" and category "general". -/
theorem c3_create_defaults (now : Nat) (db : DB) (t d : String) :
    postTodos true now db ⟨some t, some d, none, none⟩
      = (⟨200, Body.todoBody ⟨db.nextId, t, d, some "medium",
            some "general", some false, now⟩⟩,
         ⟨db.rows ++ [⟨db.nextId, t, d, some "medium", some "general",
            some false, now⟩], db.nextId + 1⟩) := rfl

/-- C5: Create with title or description absent answers the generic
server error and creates no row: the store is unchanged and List sees the
same count. -/
theorem c5_missing_field (now : Nat) (db : DB) (body : CreateBody)
    (h : body.title = none ∨ body.description = none) :
    postTodos true now db body = (serverError, db)
    ∧ ((postTodos true now db body).2).rows.length = db.rows.length
    ∧ getTodosRoute true ((postTodos true now db body).2)
        = getTodosRoute true db := by
  have hmain : postTodos true now db body = (serverError, db) := by
    rcases body with ⟨bt, bd, bp, bc⟩
    rcases h with h | h <;> simp only [] at h <;> subst h
    · rfl
    · cases bt <;> rfl
  exact ⟨hmain, by rw [hmain], by rw [hmain]⟩

/-- C5 witness at a concrete input. -/
theorem c5_missing_field_witness :
    (noTitleBody.title = none ∨ noTitleBody.description = none)
    ∧ (postTodos true 0 sampleDB noTitleBody = (serverError, sampleDB)
       ∧ ((postTodos true 0 sampleDB noTitleBody).2).rows.length
           = sampleDB.rows.length
       ∧ getTodosRoute true ((postTodos true 0 sampleDB noTitleBody).2)
           = getTodosRoute true sampleDB) :=
  ⟨Or.inl rfl, c5_missing_field 0 sampleDB noTitleBody (Or.inl rfl)⟩

/-- C10: the list view receives `filteredTodos.slice(0, 5)`: never more
than 5 todos (exactly `min 5` of the filtered length), while the "found"
counter shows the full filtered length. -/
theorem c10_slice_of_five (todos : List Todo) (s p c : String) :
    visibleTodos todos s p c = (filteredTodos todos s p c).take 5
    ∧ (visibleTodos todos s p c).length
        = min 5 (filteredTodos todos s p c).length
    ∧ (visibleTodos todos s p c).length ≤ 5
    ∧ foundCount todos s p c = (filteredTodos todos s p c).length := by
  refine ⟨rfl, ?_, ?_, rfl⟩
  · simp [visibleTodos]
  · simp [visibleTodos, List.length_take]

/-- C8 counterexample: from a state holding the create-failure message, a
SUCCESSFUL create leaves the error message in place — a subsequent
successful operation does not always clear the stored error. -/
theorem c8_counterexample :
    (addTodoUI ⟨[], false, some createFailedMsg⟩
        (Except.ok sampleTodo)).error = some createFailedMsg
    ∧ (addTodoUI ⟨[], false, some createFailedMsg⟩
        (Except.ok sampleTodo)).error ≠ none :=
  ⟨rfl, by simp [addTodoUI]⟩

/-- C8 amended: each failed fetch/create/delete stores its fixed message;
a successful fetch clears the error, but a successful create or delete
leaves the error state untouched. -/
theorem c8_error_messages (st : UIState) (t : Todo) (ts : List Todo)
    (id : Nat) :
    (fetchTodosUI st (Except.error ())).error = some fetchFailedMsg
    ∧ (addTodoUI st (Except.error ())).error = some createFailedMsg
    ∧ (markAsDoneUI st id (Except.error ())).error = some markDoneFailedMsg
    ∧ (fetchTodosUI st (Except.ok ts)).error = none
    ∧ (addTodoUI st (Except.ok t)).error = st.error
    ∧ (markAsDoneUI st id (Except.ok ())).error = st.error :=
  ⟨rfl, rfl, rfl, rfl, rfl, rfl⟩

/-- C9 counterexample: a Create with an EMPTY title succeeds (status 200)
and stores a row whose title is the empty string — the Create operation
does not enforce non-emptiness. -/
theorem c9_counterexample :
    (postTodos true 0 emptyDB ⟨some "", some "desc", none, none⟩).1.status
      = 200
    ∧ ((postTodos true 0 emptyDB
          ⟨some "", some "desc", none, none⟩).2).rows.map
        (fun r => r.title) = [""] :=
  ⟨rfl, rfl⟩

/-- C7: the visible list is exactly the todos satisfying the conjunction
of the three filter criteria, and with all filters at their defaults
(empty search, "all", "all") it equals the full stored list. -/
theorem c7_filter_conjunction (todos : List Todo) (s p c : String)
    (t : Todo) :
    (t ∈ filteredTodos todos s p c ↔ t ∈ todos ∧ SpecMatches s p c t)
    ∧ filteredTodos todos "" "all" "all" = todos := by
  constructor
  · rw [filteredTodos, List.mem_filter]
    have hpred : matchesFilters s p c t = true ↔ SpecMatches s p c t := by
      simp only [matchesFilters, SpecMatches, Bool.and_eq_true,
        Bool.or_eq_true, beq_iff_eq, includesCI_iff, and_assoc]
    rw [hpred]
  · rw [filteredTodos]
    apply List.filter_eq_self.mpr
    intro a _
    simp [matchesFilters, includesCI_empty]

/-- C1: Create with all four fields, then Get-by-id with the returned id,
yields a record whose four fields equal the inputs, with the
store-generated id (the SERIAL counter) and `created_at` (the store
clock). -/
theorem c1_round_trip (db : DB) (now : Nat) (t d p c : String)
    (hwf : ∀ r ∈ db.rows, r.todo_id < db.nextId) :
    ∃ row rest,
      postTodos true now db ⟨some t, some d, some p, some c⟩
        = (⟨200, Body.todoBody row⟩, rest)
      ∧ row.title = t ∧ row.description = d
      ∧ row.priority = some p ∧ row.category = some c
      ∧ row.todo_id = db.nextId ∧ row.created_at = now
      ∧ getTodoRoute true rest row.todo_id = ⟨200, Body.todoBody row⟩ := by
  refine ⟨⟨db.nextId, t, d, some p, some c, some false, now⟩,
    ⟨db.rows ++ [(⟨db.nextId, t, d, some p, some c, some false, now⟩ : Todo)],
     db.nextId + 1⟩, ?_, rfl, rfl, rfl, rfl, rfl, rfl, ?_⟩
  · rfl
  have hnil : db.rows.filter
      (fun r => r.todo_id == db.nextId) = [] := by
    rw [List.filter_eq_nil_iff]
    intro a ha
    simpa using Nat.ne_of_lt (hwf a ha)
  simp [getTodoRoute, selectByIdQuery, List.filter_append, hnil]

/-- C1 witness at the spec scenario input. -/
theorem c1_round_trip_witness :
    (∀ r ∈ emptyDB.rows, r.todo_id < emptyDB.nextId)
    ∧ (∃ row rest,
        postTodos true 0 emptyDB
            ⟨some "Buy milk", some "2%", some "low", some "shopping"⟩
          = (⟨200, Body.todoBody row⟩, rest)
        ∧ row.title = "Buy milk" ∧ row.description = "2%"
        ∧ row.priority = some "low" ∧ row.category = some "shopping"
        ∧ row.todo_id = emptyDB.nextId ∧ row.created_at = 0
        ∧ getTodoRoute true rest row.todo_id = ⟨200, Body.todoBody row⟩) :=
  ⟨by simp [emptyDB],
   c1_round_trip emptyDB 0 "Buy milk" "2%" "low" "shopping"
     (by simp [emptyDB])⟩

/-- C2: an id matching no row is not an error: Get-by-id answers 200 with
an empty body, Update answers the success message and changes nothing,
Delete answers the success message and changes nothing. -/
theorem c2_not_found (db : DB) (id : Nat) (ub : UpdateBody)
    (h : ∀ r ∈ db.rows, r.todo_id ≠ id) :
    getTodoRoute true db id = ⟨200, Body.emptyBody⟩
    ∧ putTodoRoute true db id ub
        = (⟨200, Body.msgBody "Todo updated successfully"⟩, db)
    ∧ deleteTodoRoute true db id
        = (⟨200, Body.msgBody "Todo deleted successfully"⟩, db) := by
  have hnil : db.rows.filter (fun r => r.todo_id == id) = [] := by
    rw [List.filter_eq_nil_iff]
    intro a ha
    simpa using h a ha
  have hany : db.rows.any (fun r => r.todo_id == id) = false := by
    rw [List.any_eq_false]
    intro a ha
    simpa using h a ha
  have hkeep : db.rows.filter (fun r => !(r.todo_id == id)) = db.rows := by
    apply List.filter_eq_self.mpr
    intro a ha
    simpa using h a ha
  refine ⟨?_, ?_, ?_⟩
  · simp [getTodoRoute, selectByIdQuery, hnil]
  · simp [putTodoRoute, updateQuery, hany]
  · simp [deleteTodoRoute, deleteQuery, hkeep]

/-- C2 witness at a concrete store and id. -/
theorem c2_not_found_witness :
    (∀ r ∈ sampleDB.rows, r.todo_id ≠ 2)
    ∧ (getTodoRoute true sampleDB 2 = ⟨200, Body.emptyBody⟩
       ∧ putTodoRoute true sampleDB 2 emptyUpdate
           = (⟨200, Body.msgBody "Todo updated successfully"⟩, sampleDB)
       ∧ deleteTodoRoute true sampleDB 2
           = (⟨200, Body.msgBody "Todo deleted successfully"⟩, sampleDB)) :=
  ⟨by decide, c2_not_found sampleDB 2 emptyUpdate (by decide)⟩

/-- A run of valid Create requests appends exactly the corresponding rows
and advances the SERIAL counter by the number of requests. -/
theorem createAll_rows (now : Nat) (bodies : List CreateBody)
    (h : ∀ b ∈ bodies, b.title.isSome ∧ b.description.isSome) (db : DB) :
    (createAll now db bodies).rows = db.rows ++ newRows now db.nextId bodies
    ∧ (createAll now db bodies).nextId = db.nextId + bodies.length := by
  induction bodies generalizing db with
  | nil => simp [createAll, newRows]
  | cons b bs ih =>
    obtain ⟨hbt, hbd⟩ := h b (List.mem_cons_self _ _)
    obtain ⟨t, ht⟩ := Option.isSome_iff_exists.mp hbt
    obtain ⟨d, hd⟩ := Option.isSome_iff_exists.mp hbd
    have hstep : (postTodos true now db b).2
        = ⟨db.rows ++ [(⟨db.nextId, t, d, some (b.priority.getD "medium"),
              some (b.category.getD "general"), some false, now⟩ : Todo)],
           db.nextId + 1⟩ := by
      simp [postTodos, insertQuery, ht, hd]
    have hcons : createAll now db (b :: bs)
        = createAll now ((postTodos true now db b).2) bs := rfl
    have hrec := ih (fun x hx => h x (List.mem_cons_of_mem _ hx))
      ((postTodos true now db b).2)
    rw [hstep] at hrec
    constructor
    · rw [hcons, hstep, hrec.1]
      simp [newRows, ht, hd]
    · rw [hcons, hstep, hrec.2]
      simp
      omega

/-- The ids of the rows a run of valid Create requests adds form the
ascending SERIAL range. -/
theorem newRows_map_id (now : Nat) (startId : Nat)
    (bodies : List CreateBody) :
    (newRows now startId bodies).map (fun r => r.todo_id)
      = List.range' startId bodies.length := by
  induction bodies generalizing startId with
  | nil => simp [newRows]
  | cons b bs ih => simp [newRows, List.range', ih]

/-- C6: after creating N valid todos from an empty store, List answers
with exactly the N created rows in insertion order, each exactly once
(distinct ids), ids strictly ascending (primary key order). -/
theorem c6_list_completeness (now : Nat) (bodies : List CreateBody)
    (h : ∀ b ∈ bodies, b.title.isSome ∧ b.description.isSome) :
    getTodosRoute true (createAll now emptyDB bodies)
      = ⟨200, Body.listBody (createAll now emptyDB bodies).rows⟩
    ∧ (createAll now emptyDB bodies).rows = newRows now 1 bodies
    ∧ (createAll now emptyDB bodies).rows.length = bodies.length
    ∧ (createAll now emptyDB bodies).rows.map (fun r => r.todo_id)
        = List.range' 1 bodies.length
    ∧ ((createAll now emptyDB bodies).rows.map (fun r => r.todo_id)).Nodup
    ∧ List.Pairwise (· < ·)
        ((createAll now emptyDB bodies).rows.map (fun r => r.todo_id)) := by
  obtain ⟨hrows, -⟩ := createAll_rows now bodies h emptyDB
  rw [show emptyDB.rows = [] from rfl, show emptyDB.nextId = 1 from rfl,
    List.nil_append] at hrows
  have hids : (createAll now emptyDB bodies).rows.map (fun r => r.todo_id)
      = List.range' 1 bodies.length := by
    rw [hrows, newRows_map_id]
  refine ⟨rfl, hrows, ?_, hids, ?_, ?_⟩
  · have := congrArg List.length hids
    simpa using this
  · rw [hids]
    exact List.nodup_range' 1 bodies.length
  · rw [hids]
    exact List.pairwise_lt_range' 1 bodies.length

/-- C6 witness at a concrete two-request run. -/
theorem c6_list_completeness_witness :
    (∀ b ∈ sampleBodies, b.title.isSome ∧ b.description.isSome)
    ∧ (getTodosRoute true (createAll 0 emptyDB sampleBodies)
        = ⟨200, Body.listBody (createAll 0 emptyDB sampleBodies).rows⟩
       ∧ (createAll 0 emptyDB sampleBodies).rows = newRows 0 1 sampleBodies
       ∧ (createAll 0 emptyDB sampleBodies).rows.length
           = sampleBodies.length
       ∧ (createAll 0 emptyDB sampleBodies).rows.map (fun r => r.todo_id)
           = List.range' 1 sampleBodies.length
       ∧ ((createAll 0 emptyDB sampleBodies).rows.map
            (fun r => r.todo_id)).Nodup
       ∧ List.Pairwise (· < ·)
           ((createAll 0 emptyDB sampleBodies).rows.map
             (fun r => r.todo_id))) :=
  ⟨by decide, c6_list_completeness 0 sampleBodies (by decide)⟩

/-- C9 amended: a successful Create implies title and description were
present (never null) in the request, and the stored row carries exactly
those strings (which may be empty). -/
theorem c9_never_null (now : Nat) (db : DB) (body : CreateBody)
    (h : (postTodos true now db body).1.status ≠ 500) :
    body.title.isSome ∧ body.description.isSome
    ∧ (postTodos true now db body).2.rows
        = db.rows ++ [(⟨db.nextId, body.title.getD "",
            body.description.getD "", some (body.priority.getD "medium"),
            some (body.category.getD "general"), some false, now⟩ :
              Todo)] := by
  rcases body with ⟨bt, bd, bp, bc⟩
  cases bt with
  | none => exact absurd rfl h
  | some t =>
    cases bd with
    | none => exact absurd rfl h
    | some d => exact ⟨rfl, rfl, rfl⟩

/-- C9 amended witness at a concrete valid request. -/
theorem c9_never_null_witness :
    ((postTodos true 0 emptyDB validBody).1.status ≠ 500)
    ∧ (validBody.title.isSome ∧ validBody.description.isSome
       ∧ (postTodos true 0 emptyDB validBody).2.rows
           = emptyDB.rows ++ [(⟨emptyDB.nextId, validBody.title.getD "",
               validBody.description.getD "",
               some (validBody.priority.getD "medium"),
               some (validBody.category.getD "general"), some false, 0⟩ :
                 Todo)]) :=
  ⟨by decide, c9_never_null 0 emptyDB validBody (by decide)⟩

end TodoApp
